import Mathlib

/-!
Verification development for the Project Chimera deliberation core.

Python strings are modelled as `List Char`; floats produced by the
extraction heuristics as `ℚ`; `None`-able values as `Option`; the
language-model service as oracle functions supplied as parameters.
Each definition is a direct transcription of the corresponding Python
function, named after it (leading underscores dropped).
-/

namespace Py

/-- Model of Python `\s` for ASCII text (space, tab, newline, CR, VT, FF). -/
def isSpaceChar (c : Char) : Bool :=
  c = ' ' || c = '\t' || c = '\n' || c = '\r' || c = '\x0b' || c = '\x0c'

/-- Model of Python `str.lower` on ASCII text. -/
def pyLower (l : List Char) : List Char := l.map Char.toLower

/-- Model of Python `str.upper` on ASCII text. -/
def pyUpper (l : List Char) : List Char := l.map Char.toUpper

/-- Model of Python `pat in text` (substring containment). -/
def containsSub (pat : List Char) : List Char → Bool
  | [] => pat.isEmpty
  | c :: rest => pat.isPrefixOf (c :: rest) || containsSub pat rest

/-- Number of (possibly overlapping) occurrences of `pat` in `l`; used to
formalise the spec's reading of keyword tallies as occurrence counts. -/
def countOccur (pat : List Char) : List Char → Nat
  | [] => 0
  | c :: rest => (if pat.isPrefixOf (c :: rest) then 1 else 0) + countOccur pat rest

/-- Numeric value of a digit run. -/
def digitsVal (ds : List Char) : Nat := ds.foldl (fun n c => 10 * n + (c.toNat - 48)) 0

/-- Model of Python `max` on two rationals. -/
def pyMax (a b : ℚ) : ℚ := if Rat.blt a b then b else a

/-- Model of Python `min` on two rationals. -/
def pyMin (a b : ℚ) : ℚ := if Rat.blt b a then b else a

/-- Match a literal (given lower-case) case-insensitively at the head of
the input, returning the rest. -/
def litMatch : List Char → List Char → Option (List Char)
  | [], l => some l
  | _ :: _, [] => none
  | a :: as, c :: cs => if c.toLower = a then litMatch as cs else none

/-- Greedy `\s*`. -/
def wsSkip (l : List Char) : List Char := l.dropWhile isSpaceChar

/-- Parse `\d+(?:\.\d+)?` greedily at the head of the input, returning the
captured value and the rest.  For the pattern tails used below, failing
continuations cannot be rescued by giving back digits, so no backtracking
into the number is needed. -/
def numParse (l : List Char) : Option (ℚ × List Char) :=
  let ds := l.takeWhile Char.isDigit
  if ds.isEmpty then none
  else
    let rest := l.drop ds.length
    let ip : ℚ := (digitsVal ds : ℚ)
    match rest with
    | '.' :: r2 =>
      let fs := r2.takeWhile Char.isDigit
      if fs.isEmpty then some (ip, rest)
      else some (ip + (digitsVal fs : ℚ) / ((10 ^ fs.length : ℕ) : ℚ), r2.drop fs.length)
    | _ => some (ip, rest)

/-- Parse `[0-9]{1,3}` greedily at the head of the input. -/
def numParse3 (l : List Char) : Option (Nat × List Char) :=
  let ds := (l.takeWhile Char.isDigit).take 3
  if ds.isEmpty then none else some (digitsVal ds, l.drop ds.length)

/-- Parse `[0-9](?:\.\d+)?` at the head of the input. -/
def numParse1 (l : List Char) : Option (ℚ × List Char) :=
  match l with
  | c :: rest =>
    if c.isDigit then
      let ip : ℚ := ((c.toNat - 48 : Nat) : ℚ)
      match rest with
      | '.' :: r2 =>
        let fs := r2.takeWhile Char.isDigit
        if fs.isEmpty then some (ip, rest)
        else some (ip + (digitsVal fs : ℚ) / ((10 ^ fs.length : ℕ) : ℚ), r2.drop fs.length)
      | _ => some (ip, rest)
    else none
  | [] => none

/-- Model of `re.search`: try the matcher at every start position, left to
right. -/
def reSearch (f : List Char → Option α) : List Char → Option α
  | [] => f []
  | c :: rest =>
    match f (c :: rest) with
    | some v => some v
    | none => reSearch f rest

/-- Model of a lazy `.*?` gap: try the continuation at the current
position first, then let the gap swallow one more non-newline character. -/
def gapScan (f : List Char → Option α) : List Char → Option α
  | [] => f []
  | c :: rest =>
    match f (c :: rest) with
    | some v => some v
    | none => if c = '\n' then none else gapScan f rest

/-- Optional literal group with backtracking: prefer consuming the
literal, fall back to not consuming it. -/
def optLit (lit : List Char) (l : List Char) (k : List Char → Option α) : Option α :=
  match litMatch lit l with
  | some r =>
    match k r with
    | some v => some v
    | none => k l
  | none => k l

/-- Tail matcher for `(\d+(?:\.\d+)?)\s*%`. -/
def pctTail (l : List Char) : Option ℚ :=
  match numParse l with
  | none => none
  | some (v, r) =>
    match wsSkip r with
    | '%' :: _ => some v
    | _ => none

/-- Tail matcher for `(\d+(?:\.\d+)?)/10`. -/
def slash10Tail (l : List Char) : Option ℚ :=
  match numParse l with
  | none => none
  | some (v, r) =>
    match r with
    | '/' :: '1' :: '0' :: _ => some v
    | _ => none

end Py

open Py

/-! Basic orchestrator (`orchestrator.py`, class `AgentOrchestrator`). -/

namespace Orchestrator

/-- Transcription of `AgentOrchestrator._extract_recommendation`: scan the
lower-cased text for the literal words buy and sell. -/
def extract_recommendation (analysis : List Char) : List Char :=
  let analysis_lower := pyLower analysis
  if containsSub "buy".toList analysis_lower && !(containsSub "sell".toList analysis_lower) then
    "Buy".toList
  else if containsSub "sell".toList analysis_lower then
    "Sell".toList
  else
    "Hold".toList

/-- Transcription of `AgentOrchestrator._extract_position_size`: first match
of `(\d+(?:\.\d+)?)\s*%`, else `None`. -/
def extract_position_size (analysis : List Char) : Option ℚ :=
  reSearch pctTail analysis

/-- Matcher at one position for
`confidence(?: level)?(?: of)?[:\s]*([0-9]{1,3})%`. -/
def confPctAt (l : List Char) : Option ℚ :=
  match litMatch "confidence".toList l with
  | none => none
  | some r =>
    optLit " level".toList r (fun r1 =>
      optLit " of".toList r1 (fun r2 =>
        let r3 := r2.dropWhile (fun c => c = ':' || isSpaceChar c)
        match numParse3 r3 with
        | some (v, r4) =>
          match r4 with
          | '%' :: _ => some ((v : ℚ))
          | _ => none
        | none => none))

/-- Matcher at one position for
`confidence(?: level)?(?: of)?[:\s]*([0-9](?:\.\d+)?)/10`. -/
def confTenAt (l : List Char) : Option ℚ :=
  match litMatch "confidence".toList l with
  | none => none
  | some r =>
    optLit " level".toList r (fun r1 =>
      optLit " of".toList r1 (fun r2 =>
        let r3 := r2.dropWhile (fun c => c = ':' || isSpaceChar c)
        match numParse1 r3 with
        | some (v, r4) =>
          match r4 with
          | '/' :: '1' :: '0' :: _ => some v
          | _ => none
        | none => none))

/-- Matcher at one position for `([0-9]{1,3})% confidence`. -/
def pctConfFallbackAt (l : List Char) : Option ℚ :=
  match numParse3 l with
  | some (v, r) =>
    match litMatch "% confidence".toList r with
    | some _ => some ((v : ℚ))
    | none => none
  | none => none

/-- Transcription of `AgentOrchestrator._extract_confidence_score`: percent
pattern, then ten-scale pattern, then bare `NN% confidence` fallback, each
normalised and clamped to `[0,1]`; `None` when nothing matches. -/
def extract_confidence_score (analysis : List Char) : Option ℚ :=
  match reSearch confPctAt analysis with
  | some v => some (pyMin (pyMax (v / 100) 0) 1)
  | none =>
    match reSearch confTenAt analysis with
    | some v => some (pyMin (pyMax (v / 10) 0) 1)
    | none =>
      match reSearch pctConfFallbackAt analysis with
      | some v => some (pyMin (pyMax (v / 100) 0) 1)
      | none => none

end Orchestrator

/-! Enhanced orchestrator extraction
(`enhanced_orchestrator.py`, class `EnhancedAgentOrchestrator`). -/

namespace Enhanced

/-- Matcher at one position for `recommend(?:ation)?[:\s]+([A-Z]+)`
(IGNORECASE), capturing the letter run. -/
def recPat1At (l : List Char) : Option (List Char) :=
  match litMatch "recommend".toList l with
  | none => none
  | some r =>
    optLit "ation".toList r (fun r1 =>
      let cls := r1.takeWhile (fun c => c = ':' || isSpaceChar c)
      if cls.isEmpty then none
      else
        let r2 := r1.drop cls.length
        let ltrs := r2.takeWhile Char.isAlpha
        if ltrs.isEmpty then none else some ltrs)

/-- Matcher at one position for `decision[:\s]+([A-Z]+)` (IGNORECASE). -/
def recPat2At (l : List Char) : Option (List Char) :=
  match litMatch "decision".toList l with
  | none => none
  | some r =>
    let cls := r.takeWhile (fun c => c = ':' || isSpaceChar c)
    if cls.isEmpty then none
    else
      let r2 := r.drop cls.length
      let ltrs := r2.takeWhile Char.isAlpha
      if ltrs.isEmpty then none else some ltrs

/-- Matcher at one position for `action[:\s]+([A-Z]+)` (IGNORECASE). -/
def recPat3At (l : List Char) : Option (List Char) :=
  match litMatch "action".toList l with
  | none => none
  | some r =>
    let cls := r.takeWhile (fun c => c = ':' || isSpaceChar c)
    if cls.isEmpty then none
    else
      let r2 := r.drop cls.length
      let ltrs := r2.takeWhile Char.isAlpha
      if ltrs.isEmpty then none else some ltrs

/-- Matcher at one position for `([A-Z]+)\s+recommendation` (IGNORECASE). -/
def recPat4At (l : List Char) : Option (List Char) :=
  let ltrs := l.takeWhile Char.isAlpha
  if ltrs.isEmpty then none
  else
    let r := l.drop ltrs.length
    let ws := r.takeWhile isSpaceChar
    if ws.isEmpty then none
    else
      match litMatch "recommendation".toList (r.drop ws.length) with
      | some _ => some ltrs
      | none => none

/-- Matcher at one position for `([A-Z]+)\s+decision` (IGNORECASE). -/
def recPat5At (l : List Char) : Option (List Char) :=
  let ltrs := l.takeWhile Char.isAlpha
  if ltrs.isEmpty then none
  else
    let r := l.drop ltrs.length
    let ws := r.takeWhile isSpaceChar
    if ws.isEmpty then none
    else
      match litMatch "decision".toList (r.drop ws.length) with
      | some _ => some ltrs
      | none => none

/-- Transcription of `EnhancedAgentOrchestrator._extract_recommendation`:
five ordered regex patterns; on the first match the capture is upper-cased,
otherwise the default `HOLD`. -/
def extract_recommendation (analysis : List Char) : List Char :=
  match reSearch recPat1At analysis with
  | some cap => pyUpper cap
  | none =>
    match reSearch recPat2At analysis with
    | some cap => pyUpper cap
    | none =>
      match reSearch recPat3At analysis with
      | some cap => pyUpper cap
      | none =>
        match reSearch recPat4At analysis with
        | some cap => pyUpper cap
        | none =>
          match reSearch recPat5At analysis with
          | some cap => pyUpper cap
          | none => "HOLD".toList

/-- Matcher at one position for
`(\d+(?:\.\d+)?)\s*%\s*(?:position|allocation|size)`. -/
def posPat1At (l : List Char) : Option ℚ :=
  match numParse l with
  | none => none
  | some (v, r) =>
    match wsSkip r with
    | '%' :: r2 =>
      let r3 := wsSkip r2
      if (litMatch "position".toList r3).isSome
          || (litMatch "allocation".toList r3).isSome
          || (litMatch "size".toList r3).isSome then some v else none
    | _ => none

/-- Matcher at one position for `position\s*size.*?(\d+(?:\.\d+)?)\s*%`. -/
def posPat2At (l : List Char) : Option ℚ :=
  match litMatch "position".toList l with
  | none => none
  | some r =>
    match litMatch "size".toList (wsSkip r) with
    | none => none
    | some r2 => gapScan pctTail r2

/-- Matcher at one position for `recommend.*?(\d+(?:\.\d+)?)\s*%`. -/
def posPat3At (l : List Char) : Option ℚ :=
  match litMatch "recommend".toList l with
  | none => none
  | some r => gapScan pctTail r

/-- Matcher at one position for `(\d+(?:\.\d+)?)\s*%\s*of\s*portfolio`. -/
def posPat4At (l : List Char) : Option ℚ :=
  match numParse l with
  | none => none
  | some (v, r) =>
    match wsSkip r with
    | '%' :: r2 =>
      match litMatch "of".toList (wsSkip r2) with
      | none => none
      | some r3 =>
        match litMatch "portfolio".toList (wsSkip r3) with
        | some _ => some v
        | none => none
    | _ => none

/-- First match over the four shared position-size patterns, in declared
order. -/
def firstPosMatch (analysis : List Char) : Option ℚ :=
  match reSearch posPat1At analysis with
  | some v => some v
  | none =>
    match reSearch posPat2At analysis with
    | some v => some v
    | none =>
      match reSearch posPat3At analysis with
      | some v => some v
      | none => reSearch posPat4At analysis

/-- Transcription of `EnhancedAgentOrchestrator._extract_position_size`:
first matching pattern wins, default `5.0`. -/
def extract_position_size (analysis : List Char) : ℚ :=
  match firstPosMatch analysis with
  | some v => v
  | none => 5

/-- Matcher at one position for `confidence.*?(\d+(?:\.\d+)?)\s*%`. -/
def confPat1At (l : List Char) : Option ℚ :=
  match litMatch "confidence".toList l with
  | none => none
  | some r => gapScan pctTail r

/-- Matcher at one position for `(\d+(?:\.\d+)?)\s*%\s*confidence`. -/
def confPat2At (l : List Char) : Option ℚ :=
  match numParse l with
  | none => none
  | some (v, r) =>
    match wsSkip r with
    | '%' :: r2 =>
      match litMatch "confidence".toList (wsSkip r2) with
      | some _ => some v
      | none => none
    | _ => none

/-- Matcher at one position for `confidence.*?(\d+(?:\.\d+)?)/10`. -/
def confPat3At (l : List Char) : Option ℚ :=
  match litMatch "confidence".toList l with
  | none => none
  | some r => gapScan slash10Tail r

/-- Matcher at one position for `(\d+(?:\.\d+)?)/10\s*confidence`. -/
def confPat4At (l : List Char) : Option ℚ :=
  match numParse l with
  | none => none
  | some (v, r) =>
    match r with
    | '/' :: '1' :: '0' :: r2 =>
      match litMatch "confidence".toList (wsSkip r2) with
      | some _ => some v
      | none => none
    | _ => none

/-- First match over the four shared confidence patterns, in declared
order. -/
def firstConfMatch (analysis : List Char) : Option ℚ :=
  match reSearch confPat1At analysis with
  | some v => some v
  | none =>
    match reSearch confPat2At analysis with
    | some v => some v
    | none =>
      match reSearch confPat3At analysis with
      | some v => some v
      | none => reSearch confPat4At analysis

/-- Value-driven normalisation shared by the enhanced confidence
extractors: above 10 the match is taken as a percentage, otherwise as a
ten-point score. -/
def normConf (v : ℚ) : ℚ := if 10 < v then v / 100 else v / 10

/-- Transcription of `EnhancedAgentOrchestrator._extract_confidence_score`:
first matching pattern wins, the value is normalised by `normConf`,
default `0.7`. -/
def extract_confidence_score (analysis : List Char) : ℚ :=
  match firstConfMatch analysis with
  | some v => normConf v
  | none => 7 / 10

end Enhanced

/-! Advanced risk manager (`advanced_risk_manager.py`, class
`AdvancedRiskManager` and the three risk-analyst personas). -/

namespace AdvancedRiskManager

/-- Transcription of `AdvancedRiskManager._extract_position_size`: the same
four ordered patterns as the enhanced orchestrator, but with no default. -/
def extract_position_size (analysis : List Char) : Option ℚ :=
  Enhanced.firstPosMatch analysis

/-- Transcription of `AdvancedRiskManager._extract_confidence`: the same
four ordered patterns as the enhanced orchestrator, value-normalised, with
no default. -/
def extract_confidence (analysis : List Char) : Option ℚ :=
  match Enhanced.firstConfMatch analysis with
  | some v => some (Enhanced.normConf v)
  | none => none

/-- The fixed risk lexicon of `_calculate_risk_score`. -/
def risk_keywords : List (List Char) :=
  ["high risk".toList, "volatile".toList, "uncertainty".toList,
   "danger".toList, "warning".toList, "caution".toList]

/-- The fixed safety lexicon of `_calculate_risk_score`. -/
def safety_keywords : List (List Char) :=
  ["safe".toList, "stable".toList, "conservative".toList,
   "low risk".toList, "defensive".toList]

/-- Python `sum(1 for keyword in kws if keyword in text_lower)`: the number
of lexicon keywords present in one text (each counted at most once). -/
def keywordsPresent (kws : List (List Char)) (text_lower : List Char) : Nat :=
  (kws.filter (fun k => containsSub k text_lower)).length

/-- Risk-keyword tally of `_calculate_risk_score`: presence count summed
over the three texts. -/
def riskCount (conservative aggressive neutral : List Char) : Nat :=
  keywordsPresent risk_keywords (pyLower conservative)
    + keywordsPresent risk_keywords (pyLower aggressive)
    + keywordsPresent risk_keywords (pyLower neutral)

/-- Safety-keyword tally of `_calculate_risk_score`. -/
def safetyCount (conservative aggressive neutral : List Char) : Nat :=
  keywordsPresent safety_keywords (pyLower conservative)
    + keywordsPresent safety_keywords (pyLower aggressive)
    + keywordsPresent safety_keywords (pyLower neutral)

/-- Transcription of `AdvancedRiskManager._calculate_risk_score`. -/
def calculate_risk_score (conservative aggressive neutral : List Char) : ℚ :=
  let risk_count := riskCount conservative aggressive neutral
  let safety_count := safetyCount conservative aggressive neutral
  if risk_count = 0 ∧ safety_count = 0 then 5
  else
    let total_mentions := risk_count + safety_count
    1 + ((risk_count : ℚ) / (total_mentions : ℚ)) * 9

/-- Transcription of `AdvancedRiskManager._categorize_risk`. -/
def categorize_risk (risk_score : ℚ) : List Char :=
  if risk_score ≤ 3 then "Low Risk".toList
  else if risk_score ≤ 6 then "Medium Risk".toList
  else "High Risk".toList

/-- The spec's occurrence-tally reading of the risk score: keyword
occurrences counted with multiplicity, instead of per-text presence. -/
def specOccurRiskScore (conservative aggressive neutral : List Char) : ℚ :=
  let occur := fun (kws : List (List Char)) (t : List Char) =>
    (kws.map (fun k => countOccur k (pyLower t))).sum
  let risk_count := occur risk_keywords conservative
    + occur risk_keywords aggressive + occur risk_keywords neutral
  let safety_count := occur safety_keywords conservative
    + occur safety_keywords aggressive + occur safety_keywords neutral
  if risk_count = 0 ∧ safety_count = 0 then 5
  else 1 + ((risk_count : ℚ) / ((risk_count + safety_count : Nat) : ℚ)) * 9

end AdvancedRiskManager

/-! Persona service boundary (`base.py`, `BaseAgent._call_llm`). -/

namespace BaseAgent

/-- Outcome of one underlying text-generation call: content on success, the
exception text on failure. -/
def LlmResult : Type := Except (List Char) (List Char)

/-- Transcription of `BaseAgent._call_llm`: a failure of the generation
call is caught and converted into an inline error string mentioning the
agent name; the call always returns a string. -/
def call_llm (name : List Char) (resp : LlmResult) : List Char :=
  match resp with
  | .ok content => content
  | .error e => "Error in ".toList ++ name ++ ": ".toList ++ e

end BaseAgent

/-! Research team debate (`research_team.py`, class `ResearchTeam`). -/

namespace ResearchTeam

/-- The `analysis_context` dict threaded through
`conduct_research_debate`; an absent key is `none`. -/
structure RTCtx where
  ticker : List Char
  fundamental_analysis : List Char
  technical_analysis : List Char
  sentiment_analysis : List Char
  bull_arguments : Option (List Char) := none
  bear_arguments : Option (List Char) := none
deriving DecidableEq, Repr

/-- Loop state of `conduct_research_debate`: the mutable context dict, the
two `*_arguments` locals and the debate history. -/
structure RTState where
  ctx : RTCtx
  bull_args : List Char
  bear_args : List Char
  debate_history : List (List Char)
deriving DecidableEq, Repr

/-- One iteration of the `for round_num in range(debate_rounds)` loop. -/
def debateStep (fbull fbear : RTCtx → List Char) (st : RTState) (round_num : Nat) : RTState :=
  let ctx1 := if round_num = 0 then st.ctx else { st.ctx with bear_arguments := some st.bear_args }
  let bull_analysis := fbull ctx1
  let ctx2 := if round_num = 0 then ctx1 else { ctx1 with bull_arguments := some bull_analysis }
  let bear_analysis := fbear ctx2
  { ctx := ctx2
    bull_args := bull_analysis
    bear_args := bear_analysis
    debate_history := st.debate_history
      ++ ["Round ".toList ++ Nat.toDigits 10 (round_num + 1) ++ " - Bull Analysis: ".toList ++ bull_analysis,
          "Round ".toList ++ Nat.toDigits 10 (round_num + 1) ++ " - Bear Analysis: ".toList ++ bear_analysis] }

/-- State after the rounds `0, …, n-1` of the debate loop have run. -/
def stateAfter (fbull fbear : RTCtx → List Char) (c0 : RTCtx) : Nat → RTState
  | 0 => { ctx := c0, bull_args := [], bear_args := [], debate_history := [] }
  | n + 1 => debateStep fbull fbear (stateAfter fbull fbear c0 n) n

/-- The context dict as passed to the bull researcher's round-`k`
invocation. -/
def bullCtxAt (fbull fbear : RTCtx → List Char) (c0 : RTCtx) (k : Nat) : RTCtx :=
  let st := stateAfter fbull fbear c0 k
  if k = 0 then st.ctx else { st.ctx with bear_arguments := some st.bear_args }

/-- The bull researcher's round-`k` output. -/
def bullOut (fbull fbear : RTCtx → List Char) (c0 : RTCtx) (k : Nat) : List Char :=
  fbull (bullCtxAt fbull fbear c0 k)

/-- The context dict as passed to the bear researcher's round-`k`
invocation. -/
def bearCtxAt (fbull fbear : RTCtx → List Char) (c0 : RTCtx) (k : Nat) : RTCtx :=
  if k = 0 then bullCtxAt fbull fbear c0 k
  else { bullCtxAt fbull fbear c0 k with bull_arguments := some (bullOut fbull fbear c0 k) }

/-- The bear researcher's round-`k` output. -/
def bearOut (fbull fbear : RTCtx → List Char) (c0 : RTCtx) (k : Nat) : List Char :=
  fbear (bearCtxAt fbull fbear c0 k)

/-- Result dict of `conduct_research_debate` (key-point extraction is not
referenced by the properties below and is left out). -/
structure RTResult where
  bull_analysis : List Char
  bear_analysis : List Char
  debate_synthesis : List Char
  debate_history : List (List Char)
deriving DecidableEq, Repr

/-- Transcription of `ResearchTeam.conduct_research_debate`: run the
round loop on the shared context, then synthesise the final bull and bear
arguments. -/
def conduct_research_debate (fbull fbear : RTCtx → List Char)
    (fsynth : List Char → List Char → List Char)
    (c0 : RTCtx) (debate_rounds : Nat) : RTResult :=
  let st := stateAfter fbull fbear c0 debate_rounds
  { bull_analysis := st.bull_args
    bear_analysis := st.bear_args
    debate_synthesis := fsynth st.bull_args st.bear_args
    debate_history := st.debate_history }

end ResearchTeam

/-! Risk debate (`advanced_risk_manager.py`,
`AdvancedRiskManager.conduct_risk_debate` and its helpers). -/

namespace AdvancedRiskManager

/-- The position proposed to the risk debate. -/
structure ProposedPosition where
  recommendation : List Char
  confidence : ℚ
  size : ℚ
deriving DecidableEq, Repr

/-- The `analysis_context` dict threaded through `conduct_risk_debate`;
an absent key is `none`. -/
structure RKCtx where
  ticker : List Char
  investment_thesis : List Char
  market_conditions : List Char
  proposed_position : ProposedPosition
  conservative_arguments : Option (List Char) := none
  aggressive_arguments : Option (List Char) := none
  neutral_arguments : Option (List Char) := none
deriving DecidableEq, Repr

/-- Loop state of `conduct_risk_debate`. -/
structure RKState where
  ctx : RKCtx
  conservative_analysis : List Char
  aggressive_analysis : List Char
  neutral_analysis : List Char
  debate_history : List (List Char)
deriving DecidableEq, Repr

/-- One iteration of the risk-debate round loop: conservative, then
aggressive, then neutral, each seeing the latest outputs of the other
two. -/
def riskStep (fcons faggr fneut : RKCtx → List Char) (st : RKState) (round_num : Nat) : RKState :=
  let ctx1 := if round_num = 0 then st.ctx
    else { st.ctx with aggressive_arguments := some st.aggressive_analysis,
                       neutral_arguments := some st.neutral_analysis }
  let conservative_result := fcons ctx1
  let ctx2 := if round_num = 0 then ctx1
    else { ctx1 with conservative_arguments := some conservative_result,
                     neutral_arguments := some st.neutral_analysis }
  let aggressive_result := faggr ctx2
  let ctx3 := if round_num = 0 then ctx2
    else { ctx2 with conservative_arguments := some conservative_result,
                     aggressive_arguments := some aggressive_result }
  let neutral_result := fneut ctx3
  { ctx := ctx3
    conservative_analysis := conservative_result
    aggressive_analysis := aggressive_result
    neutral_analysis := neutral_result
    debate_history := st.debate_history
      ++ ["Round ".toList ++ Nat.toDigits 10 (round_num + 1) ++ " - Conservative: ".toList ++ conservative_result,
          "Round ".toList ++ Nat.toDigits 10 (round_num + 1) ++ " - Aggressive: ".toList ++ aggressive_result,
          "Round ".toList ++ Nat.toDigits 10 (round_num + 1) ++ " - Neutral: ".toList ++ neutral_result] }

/-- State after rounds `0, …, n-1` of the risk-debate loop. -/
def riskStateAfter (fcons faggr fneut : RKCtx → List Char) (c0 : RKCtx) : Nat → RKState
  | 0 => { ctx := c0, conservative_analysis := [], aggressive_analysis := [],
           neutral_analysis := [], debate_history := [] }
  | n + 1 => riskStep fcons faggr fneut (riskStateAfter fcons faggr fneut c0 n) n

/-- Context passed to the conservative analyst's round-`k` invocation. -/
def consCtxAt (fcons faggr fneut : RKCtx → List Char) (c0 : RKCtx) (k : Nat) : RKCtx :=
  let st := riskStateAfter fcons faggr fneut c0 k
  if k = 0 then st.ctx
  else { st.ctx with aggressive_arguments := some st.aggressive_analysis,
                     neutral_arguments := some st.neutral_analysis }

/-- The conservative analyst's round-`k` output. -/
def consOut (fcons faggr fneut : RKCtx → List Char) (c0 : RKCtx) (k : Nat) : List Char :=
  fcons (consCtxAt fcons faggr fneut c0 k)

/-- Context passed to the aggressive analyst's round-`k` invocation. -/
def aggrCtxAt (fcons faggr fneut : RKCtx → List Char) (c0 : RKCtx) (k : Nat) : RKCtx :=
  let st := riskStateAfter fcons faggr fneut c0 k
  if k = 0 then consCtxAt fcons faggr fneut c0 k
  else { consCtxAt fcons faggr fneut c0 k with
           conservative_arguments := some (consOut fcons faggr fneut c0 k),
           neutral_arguments := some st.neutral_analysis }

/-- The aggressive analyst's round-`k` output. -/
def aggrOut (fcons faggr fneut : RKCtx → List Char) (c0 : RKCtx) (k : Nat) : List Char :=
  faggr (aggrCtxAt fcons faggr fneut c0 k)

/-- Context passed to the neutral analyst's round-`k` invocation. -/
def neutCtxAt (fcons faggr fneut : RKCtx → List Char) (c0 : RKCtx) (k : Nat) : RKCtx :=
  if k = 0 then aggrCtxAt fcons faggr fneut c0 k
  else { aggrCtxAt fcons faggr fneut c0 k with
           conservative_arguments := some (consOut fcons faggr fneut c0 k),
           aggressive_arguments := some (aggrOut fcons faggr fneut c0 k) }

/-- The neutral analyst's round-`k` output. -/
def neutOut (fcons faggr fneut : RKCtx → List Char) (c0 : RKCtx) (k : Nat) : List Char :=
  fneut (neutCtxAt fcons faggr fneut c0 k)

/-- `metrics['position_size_recommendations']` of `_calculate_risk_metrics`. -/
structure PositionSizeRecs where
  conservative : Option ℚ
  aggressive : Option ℚ
  neutral : Option ℚ
  recommended : ℚ
deriving DecidableEq, Repr

/-- Risk metrics record of `_calculate_risk_metrics` (key risk factors are
not referenced by the properties below and are left out). -/
structure RiskMetrics where
  position_size_recommendations : PositionSizeRecs
  risk_score : ℚ
  risk_category : List Char
deriving DecidableEq, Repr

/-- Python `neutral_size or 5.0`: `None` and `0.0` are both falsy. -/
def pyOrDefault5 (v : Option ℚ) : ℚ :=
  match v with
  | none => 5
  | some x => if x = 0 then 5 else x

/-- Transcription of `AdvancedRiskManager._calculate_risk_metrics`
(position sizes, risk score and category). -/
def calculate_risk_metrics (conservative aggressive neutral : List Char) : RiskMetrics :=
  let conservative_size := extract_position_size conservative
  let aggressive_size := extract_position_size aggressive
  let neutral_size := extract_position_size neutral
  let risk_score := calculate_risk_score conservative aggressive neutral
  { position_size_recommendations :=
      { conservative := conservative_size
        aggressive := aggressive_size
        neutral := neutral_size
        recommended := pyOrDefault5 neutral_size }
    risk_score := risk_score
    risk_category := categorize_risk risk_score }

/-- `final_recommendation` record of `_generate_final_recommendation`. -/
structure FinalRecommendation where
  recommendation : List Char
  position_size : ℚ
  risk_score : ℚ
  risk_category : List Char
deriving DecidableEq, Repr

/-- Transcription of `AdvancedRiskManager._generate_final_recommendation`. -/
def generate_final_recommendation (metrics : RiskMetrics) : FinalRecommendation :=
  let risk_score := metrics.risk_score
  let recommendation :=
    if risk_score ≤ 3 then "Proceed with position - Low risk profile".toList
    else if risk_score ≤ 6 then "Proceed with caution - Monitor closely".toList
    else "Consider reducing position size or hedging".toList
  { recommendation := recommendation
    position_size := metrics.position_size_recommendations.recommended
    risk_score := risk_score
    risk_category := metrics.risk_category }

/-- Result dict of `conduct_risk_debate`. -/
structure RKResult where
  conservative_analysis : List Char
  aggressive_analysis : List Char
  neutral_analysis : List Char
  risk_synthesis : List Char
  risk_metrics : RiskMetrics
  debate_history : List (List Char)
  final_recommendation : FinalRecommendation
deriving DecidableEq, Repr

/-- Transcription of `AdvancedRiskManager.conduct_risk_debate`. -/
def conduct_risk_debate (fcons faggr fneut : RKCtx → List Char)
    (fsynth : List Char → List Char → List Char → List Char)
    (c0 : RKCtx) (debate_rounds : Nat) : RKResult :=
  let st := riskStateAfter fcons faggr fneut c0 debate_rounds
  let metrics := calculate_risk_metrics st.conservative_analysis st.aggressive_analysis st.neutral_analysis
  { conservative_analysis := st.conservative_analysis
    aggressive_analysis := st.aggressive_analysis
    neutral_analysis := st.neutral_analysis
    risk_synthesis := fsynth st.conservative_analysis st.aggressive_analysis st.neutral_analysis
    risk_metrics := metrics
    debate_history := st.debate_history
    final_recommendation := generate_final_recommendation metrics }

end AdvancedRiskManager

/-! Memory and similarity retrieval (`memory_system.py`, class
`MemorySystem.find_similar_memos`). -/

namespace MemorySystem

/-- A stored row of the `memory` table, in the order the retrieval query
returns rows (`ORDER BY created_at DESC`). -/
structure MemRecord where
  memo_id : List Char
  ticker : List Char
  investment_thesis : List Char
  risk_assessment : List Char
  outcome : Option (List Char)
  created_at : List Char
deriving DecidableEq, Repr

/-- One retrieved entry: the record together with its similarity score. -/
structure SimilarMemo where
  record : MemRecord
  similarity_score : ℚ
deriving DecidableEq, Repr

/-- Stable insertion of an entry into a list sorted by descending score:
the entry moves past strictly greater scores only, so ties keep their
original order, as Python's stable `sort(..., reverse=True)` does. -/
def insertDesc (x : SimilarMemo) : List SimilarMemo → List SimilarMemo
  | [] => [x]
  | y :: ys =>
    if Rat.blt x.similarity_score y.similarity_score then y :: insertDesc x ys
    else x :: y :: ys

/-- Stable sort by descending similarity score. -/
def sortDesc : List SimilarMemo → List SimilarMemo
  | [] => []
  | x :: xs => insertDesc x (sortDesc xs)

/-- Transcription of `MemorySystem.find_similar_memos`.  The TF-IDF cosine
similarity produced by the external vectoriser for the current memo is
abstracted as the function `sim` on stored records; everything after the
scores are computed is transcribed: restrict to rows whose `outcome` is
non-null, keep scores at or above `min_similarity`, sort by descending
score, return the first `limit` entries. -/
def find_similar_memos (sim : MemRecord → ℚ) (store : List MemRecord)
    (limit : Nat) (min_similarity : ℚ) : List SimilarMemo :=
  let historical_memos := store.filter (fun r => r.outcome.isSome)
  let similar_memos := historical_memos.filterMap (fun r =>
    if min_similarity ≤ sim r then some ⟨r, sim r⟩ else none)
  (sortDesc similar_memos).take limit

end MemorySystem

/-! Enhanced pipeline (`enhanced_orchestrator.py`: the workflow nodes,
`_validate_memo`, `generate_enhanced_memo` and `_generate_basic_memo`).
The five persona calls and the debate personas are abstracted as oracle
functions; the fundamental/sentiment data dicts are opaque blobs; the
technical data dict keeps the fields `_validate_memo` reads. -/

namespace Enhanced

/-- The fields of the `technical_data` dict that the pipeline itself
inspects (`error`, `error_message`, `current_price`); the rest is an
opaque blob consumed by the technical analyst persona. -/
structure TechData where
  error_flag : Bool
  error_message : Option (List Char)
  current_price : Option ℚ
  blob : List Char
deriving DecidableEq, Repr

/-- Context dict passed to the chief strategist persona. -/
structure ChiefCtx where
  ticker : List Char
  fundamental_analysis : List Char
  technical_analysis : List Char
  sentiment_analysis : List Char
  bull_analysis : Option (List Char) := none
  bear_analysis : Option (List Char) := none
  debate_synthesis : Option (List Char) := none
  memory_context : Option (List Char) := none
deriving DecidableEq, Repr

/-- Context dict passed to the basic risk manager persona. -/
structure RiskMgrCtx where
  ticker : List Char
  chief_strategist_analysis : List Char
  fundamental_analysis : List Char
  technical_analysis : List Char
  sentiment_analysis : List Char
deriving DecidableEq, Repr

/-- The persona service, abstracted: one text-producing function per
persona plus the memory-store outcome. -/
structure Oracles where
  fundamental : List Char → List Char → List Char
  technical : List Char → TechData → List Char
  sentiment : List Char → List Char → List Char
  chief : ChiefCtx → List Char
  riskMgr : RiskMgrCtx → List Char
  bull : ResearchTeam.RTCtx → List Char
  bear : ResearchTeam.RTCtx → List Char
  researchSynth : List Char → List Char → List Char
  consv : AdvancedRiskManager.RKCtx → List Char
  aggr : AdvancedRiskManager.RKCtx → List Char
  neut : AdvancedRiskManager.RKCtx → List Char
  riskSynth : List Char → List Char → List Char → List Char
  memoryStoreOk : Bool

/-- The orchestrator's three feature toggles. -/
structure Flags where
  enable_memory : Bool
  enable_research_debate : Bool
  enable_risk_debate : Bool
deriving DecidableEq, Repr

/-- `get_memory_insights` is called with the default insight types, which
do not include `general_analysis`, so `memory_insights.get('general_analysis', …)`
always yields this default string. -/
def memoryContextDefault : List Char := "No historical context available".toList

/-- The state dict threaded through the enhanced workflow; keys not yet
set are defaulted. -/
structure EnhState where
  ticker : List Char
  fundamental_data : List Char
  technical_data : TechData
  sentiment_data : List Char
  fundamental_analysis : List Char := []
  technical_analysis : List Char := []
  sentiment_analysis : List Char := []
  research_debate : Option ResearchTeam.RTResult := none
  chief_strategist_analysis : List Char := []
  recommendation : List Char := []
  confidence_score : ℚ := 0
  advanced_risk_assessment : Option AdvancedRiskManager.RKResult := none
  risk_assessment : List Char := []
  position_size : ℚ := 0
  risk_score : Option ℚ := none
  risk_category : Option (List Char) := none
  memory_stored : Bool := false

/-- Workflow node `fundamental_analysis`. -/
def fundamental_analysis_node (O : Oracles) (st : EnhState) : EnhState :=
  { st with fundamental_analysis := O.fundamental st.ticker st.fundamental_data }

/-- Workflow node `technical_analysis`. -/
def technical_analysis_node (O : Oracles) (st : EnhState) : EnhState :=
  { st with technical_analysis := O.technical st.ticker st.technical_data }

/-- Workflow node `sentiment_analysis`. -/
def sentiment_analysis_node (O : Oracles) (st : EnhState) : EnhState :=
  { st with sentiment_analysis := O.sentiment st.ticker st.sentiment_data }

/-- Workflow node `research_debate`: the two-round bull/bear debate, or
the disabled stub. -/
def research_debate_node (O : Oracles) (flags : Flags) (st : EnhState) : EnhState :=
  if !flags.enable_research_debate then
    let stub : ResearchTeam.RTResult :=
      { bull_analysis := "Research debate disabled".toList
        bear_analysis := "Research debate disabled".toList
        debate_synthesis := "Research debate disabled".toList
        debate_history := [] }
    { st with research_debate := some stub }
  else
    let c0 : ResearchTeam.RTCtx :=
      { ticker := st.ticker
        fundamental_analysis := st.fundamental_analysis
        technical_analysis := st.technical_analysis
        sentiment_analysis := st.sentiment_analysis }
    let result := ResearchTeam.conduct_research_debate O.bull O.bear O.researchSynth c0 2
    { st with research_debate := some result }

/-- Workflow node `chief_strategist`: produce the synthesis narrative and
derive the recommendation and confidence from it. -/
def chief_strategist_node (O : Oracles) (flags : Flags) (st : EnhState) : EnhState :=
  let ctx : ChiefCtx :=
    { ticker := st.ticker
      fundamental_analysis := st.fundamental_analysis
      technical_analysis := st.technical_analysis
      sentiment_analysis := st.sentiment_analysis
      bull_analysis := (st.research_debate).map (fun d => d.bull_analysis)
      bear_analysis := (st.research_debate).map (fun d => d.bear_analysis)
      debate_synthesis := (st.research_debate).map (fun d => d.debate_synthesis)
      memory_context := if flags.enable_memory then some memoryContextDefault else none }
  let analysis := O.chief ctx
  { st with
    chief_strategist_analysis := analysis
    recommendation := extract_recommendation analysis
    confidence_score := extract_confidence_score analysis }

/-- Workflow node `advanced_risk_management`: the three-persona risk
debate, or the basic risk persona when disabled. -/
def advanced_risk_management_node (O : Oracles) (flags : Flags) (st : EnhState) : EnhState :=
  if !flags.enable_risk_debate then
    let analysis := O.riskMgr
      { ticker := st.ticker
        chief_strategist_analysis := st.chief_strategist_analysis
        fundamental_analysis := st.fundamental_analysis
        technical_analysis := st.technical_analysis
        sentiment_analysis := st.sentiment_analysis }
    { st with risk_assessment := analysis, position_size := extract_position_size analysis }
  else
    let c0 : AdvancedRiskManager.RKCtx :=
      { ticker := st.ticker
        investment_thesis := st.chief_strategist_analysis
        market_conditions :=
          "Fundamental: ".toList ++ st.fundamental_analysis.take 500
            ++ "... Technical: ".toList ++ st.technical_analysis.take 500
            ++ "... Sentiment: ".toList ++ st.sentiment_analysis.take 500 ++ "...".toList
        proposed_position :=
          { recommendation := st.recommendation
            confidence := st.confidence_score
            size := 5 } }
    let risk_result := AdvancedRiskManager.conduct_risk_debate O.consv O.aggr O.neut O.riskSynth c0 2
    { st with
      advanced_risk_assessment := some risk_result
      position_size := risk_result.final_recommendation.position_size
      risk_score := some risk_result.final_recommendation.risk_score
      risk_category := some risk_result.final_recommendation.risk_category
      risk_assessment := risk_result.risk_synthesis }

/-- Workflow node `memory_storage`. -/
def memory_storage_node (O : Oracles) (flags : Flags) (st : EnhState) : EnhState :=
  if flags.enable_memory then { st with memory_stored := O.memoryStoreOk } else st

/-- The compiled linear workflow: fundamental → technical → sentiment →
research debate → chief strategist → advanced risk management → memory
storage. -/
def workflow_invoke (O : Oracles) (flags : Flags) (st : EnhState) : EnhState :=
  memory_storage_node O flags
    (advanced_risk_management_node O flags
      (chief_strategist_node O flags
        (research_debate_node O flags
          (sentiment_analysis_node O
            (technical_analysis_node O
              (fundamental_analysis_node O st))))))

/-- The memo dict assembled by `generate_enhanced_memo` (identifiers and
timestamps are not referenced by the properties below and are left out);
`status`, `error_message` and `memory_stored` are `none` when the
corresponding keys are absent. -/
structure Memo where
  ticker : List Char
  fundamental_analysis : List Char
  technical_analysis : List Char
  sentiment_analysis : List Char
  chief_strategist_analysis : List Char
  recommendation : List Char
  confidence_score : ℚ
  position_size : ℚ
  risk_assessment : List Char
  research_debate : Option ResearchTeam.RTResult
  advanced_risk_assessment : Option AdvancedRiskManager.RKResult
  memory_stored : Option Bool
  workflow_version : List Char
  risk_metrics : Option (ℚ × List Char)
  status : Option (List Char)
  error_message : Option (List Char)

/-- Transcription of `EnhancedAgentOrchestrator._validate_memo`. -/
def validate_memo (memo : Memo) (technical_data : TechData) : Bool × List Char :=
  if technical_data.error_flag then
    (false, "Technical data error: ".toList
      ++ technical_data.error_message.getD "Unknown error".toList)
  else
    match technical_data.current_price with
    | none => (false, "Invalid or static price detected: None".toList)
    | some price =>
      if price = 100 then (false, "Invalid or static price detected: 100.0".toList)
      else
        let rec0 := memo.recommendation
        if !(rec0 = "Buy".toList || rec0 = "Sell".toList || rec0 = "Hold".toList) then
          (false, "Invalid recommendation: ".toList ++ rec0)
        else if memo.fundamental_analysis.isEmpty then
          (false, "Missing critical field: fundamental_analysis".toList)
        else if memo.technical_analysis.isEmpty then
          (false, "Missing critical field: technical_analysis".toList)
        else if memo.sentiment_analysis.isEmpty then
          (false, "Missing critical field: sentiment_analysis".toList)
        else if memo.chief_strategist_analysis.isEmpty then
          (false, "Missing critical field: chief_strategist_analysis".toList)
        else
          let exec_summary := memo.chief_strategist_analysis
          if !rec0.isEmpty && !(containsSub (pyLower rec0) (pyLower exec_summary)) then
            (false, "Recommendation mismatch between chief strategist and top-line: ".toList
              ++ rec0 ++ " vs ".toList ++ exec_summary)
          else (true, [])

/-- The memo assembled from the completed workflow state, before
validation stamps a status. -/
def memoFrom (st : EnhState) : Memo :=
  { ticker := st.ticker
    fundamental_analysis := st.fundamental_analysis
    technical_analysis := st.technical_analysis
    sentiment_analysis := st.sentiment_analysis
    chief_strategist_analysis := st.chief_strategist_analysis
    recommendation := st.recommendation
    confidence_score := st.confidence_score
    position_size := st.position_size
    risk_assessment := st.risk_assessment
    research_debate := st.research_debate
    advanced_risk_assessment := st.advanced_risk_assessment
    memory_stored := some st.memory_stored
    workflow_version := "enhanced_v2".toList
    risk_metrics :=
      match st.risk_score, st.risk_category with
      | some s, some c => some (s, c)
      | _, _ => none
    status := none
    error_message := none }

/-- Transcription of `EnhancedAgentOrchestrator._generate_basic_memo`: the
five core personas re-run without debate or memory; the returned dict
carries no `status` key. -/
def generate_basic_memo (O : Oracles) (ticker fundamental_data : List Char)
    (technical_data : TechData) (sentiment_data : List Char) : Memo :=
  let fundamental_analysis := O.fundamental ticker fundamental_data
  let technical_analysis := O.technical ticker technical_data
  let sentiment_analysis := O.sentiment ticker sentiment_data
  let chief_analysis := O.chief
    { ticker := ticker
      fundamental_analysis := fundamental_analysis
      technical_analysis := technical_analysis
      sentiment_analysis := sentiment_analysis }
  let risk_assessment := O.riskMgr
    { ticker := ticker
      chief_strategist_analysis := chief_analysis
      fundamental_analysis := fundamental_analysis
      technical_analysis := technical_analysis
      sentiment_analysis := sentiment_analysis }
  { ticker := ticker
    fundamental_analysis := fundamental_analysis
    technical_analysis := technical_analysis
    sentiment_analysis := sentiment_analysis
    chief_strategist_analysis := chief_analysis
    recommendation := extract_recommendation chief_analysis
    confidence_score := extract_confidence_score chief_analysis
    position_size := extract_position_size risk_assessment
    risk_assessment := risk_assessment
    research_debate := none
    advanced_risk_assessment := none
    memory_stored := none
    workflow_version := "basic_fallback".toList
    risk_metrics := none
    status := none
    error_message := none }

/-- The initial workflow state built by `generate_enhanced_memo`. -/
def initState (ticker fundamental_data : List Char) (technical_data : TechData)
    (sentiment_data : List Char) : EnhState :=
  { ticker := ticker
    fundamental_data := fundamental_data
    technical_data := technical_data
    sentiment_data := sentiment_data }

/-- Transcription of `EnhancedAgentOrchestrator.generate_enhanced_memo`.
`crashed` abstracts whether anything inside the `try` block raised: if so
the except-branch falls back to `_generate_basic_memo`, otherwise the
assembled memo is validated and sealed with a status. -/
def generate_enhanced_memo (O : Oracles) (flags : Flags) (crashed : Bool)
    (ticker fundamental_data : List Char) (technical_data : TechData)
    (sentiment_data : List Char) : Memo :=
  if crashed then
    generate_basic_memo O ticker fundamental_data technical_data sentiment_data
  else
    let final_state := workflow_invoke O flags
      (initState ticker fundamental_data technical_data sentiment_data)
    let memo := memoFrom final_state
    let vr := validate_memo memo technical_data
    if vr.1 then { memo with status := some "complete".toList }
    else { memo with status := some "error".toList, error_message := some vr.2 }

end Enhanced

/-! Concrete instances used by witnesses and counterexamples. -/

/-- A concrete persona-service instantiation. -/
def oracleEx : Enhanced.Oracles :=
  { fundamental := fun _ _ => "funda".toList
    technical := fun _ _ => "tech".toList
    sentiment := fun _ _ => "sent".toList
    chief := fun _ => "Recommendation: Buy at 80% confidence".toList
    riskMgr := fun _ => "risk text".toList
    bull := fun c => "bull says ".toList ++ (c.bear_arguments.getD [])
    bear := fun c => "bear says ".toList ++ (c.bull_arguments.getD [])
    researchSynth := fun _ _ => "research synthesis".toList
    consv := fun c => "cons says ".toList ++ (c.aggressive_arguments.getD [])
    aggr := fun c => "aggr says ".toList ++ (c.conservative_arguments.getD [])
    neut := fun c => "neut says ".toList ++ (c.aggressive_arguments.getD [])
    riskSynth := fun _ _ _ => "risk synthesis".toList
    memoryStoreOk := true }

/-- A concrete error-free technical snapshot with a non-placeholder
price. -/
def tdEx : Enhanced.TechData :=
  { error_flag := false, error_message := none, current_price := some 123, blob := "t".toList }

/-- All features enabled. -/
def flagsEx : Enhanced.Flags :=
  { enable_memory := true, enable_research_debate := true, enable_risk_debate := true }

/-- A concrete memo whose recommendation is `Buy` while its chief-synthesis
narrative does not contain the word buy. -/
def memoEx : Enhanced.Memo :=
  { ticker := "TST".toList
    fundamental_analysis := "f".toList
    technical_analysis := "t".toList
    sentiment_analysis := "s".toList
    chief_strategist_analysis := "Hold steady".toList
    recommendation := "Buy".toList
    confidence_score := 7 / 10
    position_size := 5
    risk_assessment := "r".toList
    research_debate := none
    advanced_risk_assessment := none
    memory_stored := none
    workflow_version := "enhanced_v2".toList
    risk_metrics := none
    status := none
    error_message := none }

/-- Concrete bull persona recording what it was shown. -/
def fbullEx : ResearchTeam.RTCtx → List Char :=
  fun c => "bull says ".toList ++ (c.bear_arguments.getD [])

/-- Concrete bear persona recording what it was shown. -/
def fbearEx : ResearchTeam.RTCtx → List Char :=
  fun c => "bear says ".toList ++ (c.bull_arguments.getD [])

/-- Concrete shared research-debate context. -/
def rtCtxEx : ResearchTeam.RTCtx :=
  { ticker := "TST".toList
    fundamental_analysis := "f".toList
    technical_analysis := "t".toList
    sentiment_analysis := "s".toList }

/-- A stored record with a recorded outcome. -/
def recEx1 : MemorySystem.MemRecord :=
  { memo_id := "m1".toList, ticker := "TST".toList
    investment_thesis := "strong growth".toList, risk_assessment := "low risk".toList
    outcome := some "success".toList, created_at := "2024".toList }

/-- A stored record without a recorded outcome. -/
def recEx2 : MemorySystem.MemRecord :=
  { memo_id := "m2".toList, ticker := "TST".toList
    investment_thesis := "strong growth".toList, risk_assessment := "low risk".toList
    outcome := none, created_at := "2023".toList }

/-- A concrete similarity scoring. -/
def simEx : MemorySystem.MemRecord → ℚ := fun r => if r.created_at = "2024".toList then 1 else 1 / 2

/-! Helper lemmas. -/

/-- Upper-casing never yields a lower-case basic latin letter. -/
theorem char_toUpper_not_lower (c : Char) : (Char.toUpper c).isLower = false := by
  by_contra hne
  have hlow : (Char.toUpper c).isLower = true := by
    cases hx : (Char.toUpper c).isLower
    · exact absurd hx hne
    · rfl
  have h12 : (97 : Nat) ≤ (Char.toUpper c).toNat ∧ (Char.toUpper c).toNat ≤ 122 := by
    unfold Char.isLower at hlow
    rw [Bool.and_eq_true] at hlow
    obtain ⟨h1, h2⟩ := hlow
    rw [decide_eq_true_eq] at h1 h2
    exact ⟨UInt32.le_toNat_of_le (by decide) h1, UInt32.toNat_le_of_le (by decide) h2⟩
  unfold Char.toUpper at h12
  dsimp only at h12
  split at h12
  case isTrue h =>
    have hvalid : (c.toNat - 32).isValidChar := Or.inl (by omega)
    have hv : (Char.ofNat (c.toNat - 32)).toNat = c.toNat - 32 := by
      rw [Char.ofNat, dif_pos hvalid]
      rfl
    rw [hv] at h12
    omega
  case isFalse h =>
    exact h ⟨h12.1, h12.2⟩

/-- An upper-cased string never equals a string containing a lower-case
letter. -/
theorem pyUpper_ne_of_lower_mem (cap t : List Char) (c : Char)
    (hc : c ∈ t) (hl : c.isLower = true) : pyUpper cap ≠ t := by
  intro he
  rw [← he] at hc
  obtain ⟨a, _, ha⟩ := List.mem_map.mp hc
  rw [← ha, char_toUpper_not_lower a] at hl
  exact Bool.false_ne_true hl

/-- The enhanced recommendation extractor returns the default `HOLD` or an
upper-cased capture. -/
theorem enhanced_rec_cases (l : List Char) :
    Enhanced.extract_recommendation l = "HOLD".toList
    ∨ ∃ cap, Enhanced.extract_recommendation l = pyUpper cap := by
  unfold Enhanced.extract_recommendation
  rcases h1 : reSearch Enhanced.recPat1At l with _ | cap1
  · rcases h2 : reSearch Enhanced.recPat2At l with _ | cap2
    · rcases h3 : reSearch Enhanced.recPat3At l with _ | cap3
      · rcases h4 : reSearch Enhanced.recPat4At l with _ | cap4
        · rcases h5 : reSearch Enhanced.recPat5At l with _ | cap5
          · simp only [h1, h2, h3, h4, h5]
            exact Or.inl trivial
          · simp only [h1, h2, h3, h4, h5]
            exact Or.inr ⟨cap5, rfl⟩
        · simp only [h1, h2, h3, h4]
          exact Or.inr ⟨cap4, rfl⟩
      · simp only [h1, h2, h3]
        exact Or.inr ⟨cap3, rfl⟩
    · simp only [h1, h2]
      exact Or.inr ⟨cap2, rfl⟩
  · simp only [h1]
    exact Or.inr ⟨cap1, rfl⟩

/-- The enhanced recommendation extractor never returns one of the
mixed-case values the validator accepts. -/
theorem enhanced_rec_ne_mixed (l : List Char) :
    Enhanced.extract_recommendation l ≠ "Buy".toList
    ∧ Enhanced.extract_recommendation l ≠ "Sell".toList
    ∧ Enhanced.extract_recommendation l ≠ "Hold".toList := by
  rcases enhanced_rec_cases l with h | ⟨cap, h⟩
  · rw [h]
    exact ⟨by decide, by decide, by decide⟩
  · rw [h]
    exact ⟨pyUpper_ne_of_lower_mem _ _ 'u' (by decide) (by decide),
           pyUpper_ne_of_lower_mem _ _ 'e' (by decide) (by decide),
           pyUpper_ne_of_lower_mem _ _ 'o' (by decide) (by decide)⟩

/-! Claim C1. -/

/-- C1 counterexample: the claim covers the recommendation extraction of
both chief-synthesis stages, but the enhanced orchestrator's
`_extract_recommendation` maps the text `Strong buy signal` — which
contains buy and not sell — to `HOLD`, not to `Buy`. -/
theorem C1_counterexample :
    containsSub "buy".toList (pyLower "Strong buy signal".toList) = true
    ∧ containsSub "sell".toList (pyLower "Strong buy signal".toList) = false
    ∧ Enhanced.extract_recommendation "Strong buy signal".toList = "HOLD".toList
    ∧ Enhanced.extract_recommendation "Strong buy signal".toList ≠ "Buy".toList := by
  exact ⟨by decide, by decide, by decide, by decide⟩

/-- C1 (amended): the case-insensitive buy/sell scan rule — buy present and
sell absent gives Buy, sell present gives Sell, neither gives Hold — holds
for the basic orchestrator's `_extract_recommendation`; the enhanced
orchestrator's extractor uses regex patterns instead and does not follow
it. -/
theorem C1_theorem (analysis : List Char) :
    (containsSub "buy".toList (pyLower analysis) = true
        ∧ containsSub "sell".toList (pyLower analysis) = false →
      Orchestrator.extract_recommendation analysis = "Buy".toList)
    ∧ (containsSub "sell".toList (pyLower analysis) = true →
      Orchestrator.extract_recommendation analysis = "Sell".toList)
    ∧ (containsSub "buy".toList (pyLower analysis) = false
        ∧ containsSub "sell".toList (pyLower analysis) = false →
      Orchestrator.extract_recommendation analysis = "Hold".toList) := by
  refine ⟨?_, ?_, ?_⟩
  · rintro ⟨hb, hs⟩
    unfold Orchestrator.extract_recommendation
    dsimp only
    rw [hb, hs]
    decide
  · intro hs
    unfold Orchestrator.extract_recommendation
    dsimp only
    rw [hs]
    simp
  · rintro ⟨hb, hs⟩
    unfold Orchestrator.extract_recommendation
    dsimp only
    rw [hb, hs]
    decide

/-- C1 witness: the amended rule evaluated at the spec's three examples. -/
theorem C1_witness :
    Orchestrator.extract_recommendation "Strong buy signal".toList = "Buy".toList
    ∧ Orchestrator.extract_recommendation "We recommend a buy sell hedge".toList = "Sell".toList
    ∧ Orchestrator.extract_recommendation "Maintain current position".toList = "Hold".toList :=
  ⟨(C1_theorem ("Strong buy signal".toList)).1 ⟨by decide, by decide⟩,
   (C1_theorem ("We recommend a buy sell hedge".toList)).2.1 (by decide),
   (C1_theorem ("Maintain current position".toList)).2.2 ⟨by decide, by decide⟩⟩

/-! Claim C2. -/

/-- The workflow's recommendation key is derived from its chief-synthesis
narrative by the enhanced recommendation extractor, and later nodes never
touch it. -/
theorem workflow_rec_eq (O : Enhanced.Oracles) (flags : Enhanced.Flags) (st : Enhanced.EnhState) :
    (Enhanced.workflow_invoke O flags st).recommendation
      = Enhanced.extract_recommendation
          ((Enhanced.workflow_invoke O flags st).chief_strategist_analysis) := by
  unfold Enhanced.workflow_invoke Enhanced.memory_storage_node Enhanced.advanced_risk_management_node
  split <;> split <;> rfl

/-- A memo whose recommendation is none of the three accepted values fails
validation. -/
theorem validate_false_of_rec_not_valid (memo : Enhanced.Memo) (td : Enhanced.TechData)
    (h1 : memo.recommendation ≠ "Buy".toList)
    (h2 : memo.recommendation ≠ "Sell".toList)
    (h3 : memo.recommendation ≠ "Hold".toList) :
    (Enhanced.validate_memo memo td).1 = false := by
  unfold Enhanced.validate_memo
  split
  · rfl
  · split
    · rfl
    · split
      · rfl
      · rw [if_pos (by simp only [Bool.not_eq_true', Bool.or_eq_false_iff,
          decide_eq_false_iff_not]; exact ⟨⟨h1, h2⟩, h3⟩)]

/-- C2: the enhanced `_extract_recommendation` yields `HOLD` or an
upper-cased capture, never one of the mixed-case values `Buy`, `Sell`,
`Hold` that `_validate_memo` accepts; hence whenever the advanced workflow
completes without an exception, validation fails and the sealed memo's
status is `error`, never `complete`. -/
theorem C2_theorem (analysis : List Char) (O : Enhanced.Oracles) (flags : Enhanced.Flags)
    (ticker fundamental_data : List Char) (technical_data : Enhanced.TechData)
    (sentiment_data : List Char) :
    (Enhanced.extract_recommendation analysis = "HOLD".toList
      ∨ ∃ cap, Enhanced.extract_recommendation analysis = pyUpper cap)
    ∧ Enhanced.extract_recommendation analysis ≠ "Buy".toList
    ∧ Enhanced.extract_recommendation analysis ≠ "Sell".toList
    ∧ Enhanced.extract_recommendation analysis ≠ "Hold".toList
    ∧ (Enhanced.validate_memo
        (Enhanced.memoFrom (Enhanced.workflow_invoke O flags
          (Enhanced.initState ticker fundamental_data technical_data sentiment_data)))
        technical_data).1 = false
    ∧ (Enhanced.generate_enhanced_memo O flags false
        ticker fundamental_data technical_data sentiment_data).status = some "error".toList
    ∧ (Enhanced.generate_enhanced_memo O flags false
        ticker fundamental_data technical_data sentiment_data).status ≠ some "complete".toList := by
  obtain ⟨hB, hS, hH⟩ := enhanced_rec_ne_mixed analysis
  have hval : (Enhanced.validate_memo
      (Enhanced.memoFrom (Enhanced.workflow_invoke O flags
        (Enhanced.initState ticker fundamental_data technical_data sentiment_data)))
      technical_data).1 = false := by
    apply validate_false_of_rec_not_valid
    all_goals
      show (Enhanced.workflow_invoke O flags
        (Enhanced.initState ticker fundamental_data technical_data sentiment_data)).recommendation ≠ _
      rw [workflow_rec_eq]
    · exact (enhanced_rec_ne_mixed _).1
    · exact (enhanced_rec_ne_mixed _).2.1
    · exact (enhanced_rec_ne_mixed _).2.2
  have hstatus : (Enhanced.generate_enhanced_memo O flags false
      ticker fundamental_data technical_data sentiment_data).status = some "error".toList := by
    unfold Enhanced.generate_enhanced_memo
    rw [if_neg (by simp)]
    dsimp only
    rw [hval]
    rfl
  refine ⟨enhanced_rec_cases analysis, hB, hS, hH, hval, hstatus, ?_⟩
  rw [hstatus]
  decide

/-! Claim C5. -/

/-- The left half of an append with a non-empty literal is non-empty. -/
theorem append_ne_nil_left {α : Type} (p q : List α) (h : p ≠ []) : p ++ q ≠ [] := by
  intro he
  rcases List.append_eq_nil.mp he with ⟨h1, _⟩
  exact h h1

/-- C5: a memo recommending `Buy` whose chief-synthesis narrative lacks the
word buy always fails validation, and when the earlier gates pass the
reason names the mismatch; a technical error flag, a missing or placeholder
price, an invalid recommendation and an empty required stage text each
force validation failure; on the crash-free path the memo is always sealed
with a status, with a reason attached on error, never thrown. -/
theorem C5_theorem (memo : Enhanced.Memo) (td : Enhanced.TechData)
    (O : Enhanced.Oracles) (flags : Enhanced.Flags) (ticker fd sd : List Char) :
    (memo.recommendation = "Buy".toList →
      containsSub "buy".toList (pyLower memo.chief_strategist_analysis) = false →
      (Enhanced.validate_memo memo td).1 = false)
    ∧ (td.error_flag = false →
      ∀ p : ℚ, td.current_price = some p → p ≠ 100 →
      memo.recommendation = "Buy".toList →
      memo.fundamental_analysis ≠ [] → memo.technical_analysis ≠ [] →
      memo.sentiment_analysis ≠ [] → memo.chief_strategist_analysis ≠ [] →
      containsSub "buy".toList (pyLower memo.chief_strategist_analysis) = false →
      Enhanced.validate_memo memo td
        = (false, "Recommendation mismatch between chief strategist and top-line: ".toList
            ++ memo.recommendation ++ " vs ".toList ++ memo.chief_strategist_analysis))
    ∧ (td.error_flag = true →
      (Enhanced.validate_memo memo td).1 = false ∧ (Enhanced.validate_memo memo td).2 ≠ [])
    ∧ (td.error_flag = false → td.current_price = none →
      (Enhanced.validate_memo memo td).1 = false ∧ (Enhanced.validate_memo memo td).2 ≠ [])
    ∧ (td.error_flag = false → td.current_price = some 100 →
      (Enhanced.validate_memo memo td).1 = false ∧ (Enhanced.validate_memo memo td).2 ≠ [])
    ∧ (memo.recommendation ≠ "Buy".toList → memo.recommendation ≠ "Sell".toList →
      memo.recommendation ≠ "Hold".toList → (Enhanced.validate_memo memo td).1 = false)
    ∧ (memo.fundamental_analysis = [] → (Enhanced.validate_memo memo td).1 = false)
    ∧ ((Enhanced.generate_enhanced_memo O flags false ticker fd td sd).status = some "error".toList
        ∧ (Enhanced.generate_enhanced_memo O flags false ticker fd td sd).error_message ≠ none
      ∨ (Enhanced.generate_enhanced_memo O flags false ticker fd td sd).status
          = some "complete".toList) := by
  refine ⟨?_, ?_, ?_, ?_, ?_, ?_, ?_, ?_⟩
  · intro hrec hmiss
    unfold Enhanced.validate_memo
    dsimp only
    repeat' split
    all_goals try rfl
    next h =>
      exfalso
      apply h
      rw [hrec]
      have hb : pyLower "Buy".toList = "buy".toList := by decide
      rw [hb, hmiss]
      decide
  · intro herr p hp hp100 hrec hf ht hs hc hmiss
    unfold Enhanced.validate_memo
    rw [if_neg (by simp [herr]), hp]
    dsimp only
    rw [if_neg hp100, hrec]
    rw [if_neg (by decide)]
    rw [if_neg (by simp [hf]), if_neg (by simp [ht]), if_neg (by simp [hs]), if_neg (by simp [hc])]
    have hb : pyLower "Buy".toList = "buy".toList := by decide
    rw [if_pos (by rw [hb, hmiss]; decide)]
  · intro he
    unfold Enhanced.validate_memo
    rw [if_pos (by simp [he])]
    exact ⟨rfl, append_ne_nil_left _ _ (by decide)⟩
  · intro herr hnone
    unfold Enhanced.validate_memo
    rw [if_neg (by simp [herr]), hnone]
    dsimp only
    exact ⟨rfl, by decide⟩
  · intro herr h100
    unfold Enhanced.validate_memo
    rw [if_neg (by simp [herr]), h100]
    dsimp only
    rw [if_pos rfl]
    exact ⟨rfl, by decide⟩
  · intro h1 h2 h3
    exact validate_false_of_rec_not_valid memo td h1 h2 h3
  · intro hemp
    unfold Enhanced.validate_memo
    dsimp only
    repeat' split
    all_goals try rfl
    all_goals simp_all
  · rcases hv : Enhanced.validate_memo
        (Enhanced.memoFrom (Enhanced.workflow_invoke O flags
          (Enhanced.initState ticker fd td sd))) td with ⟨ok, msg⟩
    cases ok
    · left
      unfold Enhanced.generate_enhanced_memo
      rw [if_neg (by simp)]
      dsimp only
      rw [hv]
      exact ⟨rfl, by simp⟩
    · right
      unfold Enhanced.generate_enhanced_memo
      rw [if_neg (by simp)]
      dsimp only
      rw [hv]
      rfl

/-- C5 witness: the Buy-without-buy memo `memoEx` with the healthy
technical snapshot `tdEx` fails validation with the mismatch reason. -/
theorem C5_witness :
    (Enhanced.validate_memo memoEx tdEx).1 = false
    ∧ Enhanced.validate_memo memoEx tdEx
        = (false, "Recommendation mismatch between chief strategist and top-line: ".toList
            ++ memoEx.recommendation ++ " vs ".toList ++ memoEx.chief_strategist_analysis) :=
  ⟨(C5_theorem memoEx tdEx oracleEx flagsEx [] [] []).1 (by decide) (by decide),
   (C5_theorem memoEx tdEx oracleEx flagsEx [] [] []).2.1 rfl 123 rfl
     (by with_unfolding_all decide) rfl (by decide) (by decide) (by decide) (by decide) (by decide)⟩

/-! Claim C6. -/

/-- C6 counterexample: on a crash of the advanced path the returned
fallback memo carries no status key at all — `status` is `none`, not a
fallback status value — contradicting the claim that every result is
distinguished by its status field. -/
theorem C6_counterexample :
    Enhanced.generate_enhanced_memo oracleEx flagsEx true "T".toList "fd".toList tdEx "sd".toList
      = Enhanced.generate_basic_memo oracleEx "T".toList "fd".toList tdEx "sd".toList
    ∧ (Enhanced.generate_enhanced_memo oracleEx flagsEx true
        "T".toList "fd".toList tdEx "sd".toList).status = none :=
  ⟨rfl, rfl⟩

/-- C6 (amended): on any unhandled exception the pipeline falls back to
`_generate_basic_memo`, which re-runs only the five core personas with no
debate and no memory; the fallback memo is marked by
`enhanced_features.workflow_version = basic_fallback` but carries no
status field, while every crash-free result does carry a status. -/
theorem C6_theorem (O : Enhanced.Oracles) (flags : Enhanced.Flags)
    (ticker fd : List Char) (td : Enhanced.TechData) (sd : List Char) :
    Enhanced.generate_enhanced_memo O flags true ticker fd td sd
      = Enhanced.generate_basic_memo O ticker fd td sd
    ∧ (Enhanced.generate_basic_memo O ticker fd td sd).status = none
    ∧ (Enhanced.generate_basic_memo O ticker fd td sd).workflow_version = "basic_fallback".toList
    ∧ (Enhanced.generate_basic_memo O ticker fd td sd).research_debate = none
    ∧ (Enhanced.generate_basic_memo O ticker fd td sd).advanced_risk_assessment = none
    ∧ (Enhanced.generate_enhanced_memo O flags false ticker fd td sd).status ≠ none := by
  refine ⟨rfl, rfl, rfl, rfl, rfl, ?_⟩
  unfold Enhanced.generate_enhanced_memo
  rw [if_neg (by simp)]
  dsimp only
  split <;> exact Option.some_ne_none _

/-- C6 witness: the amended statement evaluated at the concrete
instantiation. -/
theorem C6_witness :
    (Enhanced.generate_basic_memo oracleEx "T".toList "fd".toList tdEx "sd".toList).status = none
    ∧ (Enhanced.generate_enhanced_memo oracleEx flagsEx false
        "T".toList "fd".toList tdEx "sd".toList).status ≠ none :=
  ⟨(C6_theorem oracleEx flagsEx "T".toList "fd".toList tdEx "sd".toList).2.1,
   (C6_theorem oracleEx flagsEx "T".toList "fd".toList tdEx "sd".toList).2.2.2.2.2⟩

/-! Claim C3. -/

/-- After round `j` the research-debate state holds exactly the round-`j`
outputs, and its context dict is the one the bear saw in round `j`. -/
theorem rt_stateAfter_succ (fbull fbear : ResearchTeam.RTCtx → List Char)
    (c0 : ResearchTeam.RTCtx) (j : Nat) :
    (ResearchTeam.stateAfter fbull fbear c0 (j + 1)).bull_args
        = ResearchTeam.bullOut fbull fbear c0 j
    ∧ (ResearchTeam.stateAfter fbull fbear c0 (j + 1)).bear_args
        = ResearchTeam.bearOut fbull fbear c0 j
    ∧ (ResearchTeam.stateAfter fbull fbear c0 (j + 1)).ctx
        = ResearchTeam.bearCtxAt fbull fbear c0 j := by
  cases j <;> exact ⟨rfl, rfl, rfl⟩

/-- After round `j` the risk-debate state holds exactly the round-`j`
outputs, and its context dict is the one the neutral analyst saw in
round `j`. -/
theorem rk_stateAfter_succ (fcons faggr fneut : AdvancedRiskManager.RKCtx → List Char)
    (c0 : AdvancedRiskManager.RKCtx) (j : Nat) :
    (AdvancedRiskManager.riskStateAfter fcons faggr fneut c0 (j + 1)).conservative_analysis
        = AdvancedRiskManager.consOut fcons faggr fneut c0 j
    ∧ (AdvancedRiskManager.riskStateAfter fcons faggr fneut c0 (j + 1)).aggressive_analysis
        = AdvancedRiskManager.aggrOut fcons faggr fneut c0 j
    ∧ (AdvancedRiskManager.riskStateAfter fcons faggr fneut c0 (j + 1)).neutral_analysis
        = AdvancedRiskManager.neutOut fcons faggr fneut c0 j
    ∧ (AdvancedRiskManager.riskStateAfter fcons faggr fneut c0 (j + 1)).ctx
        = AdvancedRiskManager.neutCtxAt fcons faggr fneut c0 j := by
  cases j <;> exact ⟨rfl, rfl, rfl, rfl⟩

/-- C3 counterexample: in the two-round research debate, the context passed
to the bear's round-1 invocation holds the bull's round-1 output — the
same-round output, produced moments earlier — not the bull's round-0
output as the claim requires. -/
theorem C3_counterexample :
    (ResearchTeam.bearCtxAt fbullEx fbearEx rtCtxEx 1).bull_arguments
        = some (ResearchTeam.bullOut fbullEx fbearEx rtCtxEx 1)
    ∧ ResearchTeam.bullOut fbullEx fbearEx rtCtxEx 1 ≠ ResearchTeam.bullOut fbullEx fbearEx rtCtxEx 0
    ∧ (ResearchTeam.bearCtxAt fbullEx fbearEx rtCtxEx 1).bull_arguments
        ≠ some (ResearchTeam.bullOut fbullEx fbearEx rtCtxEx 0)
    ∧ (ResearchTeam.conduct_research_debate fbullEx fbearEx (fun a _ => a) rtCtxEx 2).bear_analysis
        = ResearchTeam.bearOut fbullEx fbearEx rtCtxEx 1 :=
  ⟨by decide, by decide, by decide, by decide⟩

/-- C3 (amended): in round `k ≥ 1` of either debate, each persona's context
holds, for every counterpart invoked before it in the fixed round order,
that counterpart's round-`k` output, and for every counterpart invoked
after it, the counterpart's round-`(k-1)` output; nothing staler is ever
kept, since each argument slot is overwritten before every invocation. -/
theorem C3_theorem (fbull fbear : ResearchTeam.RTCtx → List Char) (c0 : ResearchTeam.RTCtx)
    (fcons faggr fneut : AdvancedRiskManager.RKCtx → List Char)
    (c0r : AdvancedRiskManager.RKCtx) (j : Nat) :
    (ResearchTeam.bullCtxAt fbull fbear c0 (j + 1)).bear_arguments
        = some (ResearchTeam.bearOut fbull fbear c0 j)
    ∧ (ResearchTeam.bearCtxAt fbull fbear c0 (j + 1)).bull_arguments
        = some (ResearchTeam.bullOut fbull fbear c0 (j + 1))
    ∧ (AdvancedRiskManager.consCtxAt fcons faggr fneut c0r (j + 1)).aggressive_arguments
        = some (AdvancedRiskManager.aggrOut fcons faggr fneut c0r j)
    ∧ (AdvancedRiskManager.consCtxAt fcons faggr fneut c0r (j + 1)).neutral_arguments
        = some (AdvancedRiskManager.neutOut fcons faggr fneut c0r j)
    ∧ (AdvancedRiskManager.aggrCtxAt fcons faggr fneut c0r (j + 1)).conservative_arguments
        = some (AdvancedRiskManager.consOut fcons faggr fneut c0r (j + 1))
    ∧ (AdvancedRiskManager.aggrCtxAt fcons faggr fneut c0r (j + 1)).neutral_arguments
        = some (AdvancedRiskManager.neutOut fcons faggr fneut c0r j)
    ∧ (AdvancedRiskManager.neutCtxAt fcons faggr fneut c0r (j + 1)).conservative_arguments
        = some (AdvancedRiskManager.consOut fcons faggr fneut c0r (j + 1))
    ∧ (AdvancedRiskManager.neutCtxAt fcons faggr fneut c0r (j + 1)).aggressive_arguments
        = some (AdvancedRiskManager.aggrOut fcons faggr fneut c0r (j + 1)) := by
  refine ⟨?_, rfl, ?_, ?_, rfl, ?_, rfl, rfl⟩
  · exact congrArg some (rt_stateAfter_succ fbull fbear c0 j).2.1
  · exact congrArg some (rk_stateAfter_succ fcons faggr fneut c0r j).2.1
  · exact congrArg some (rk_stateAfter_succ fcons faggr fneut c0r j).2.2.1
  · exact congrArg some (rk_stateAfter_succ fcons faggr fneut c0r j).2.2.1

/-! Claim C4. -/

/-- C4 counterexample: `confidence: 7%` is matched by the first percent
pattern of the enhanced extractor, yet the value 7 is normalised as 7/10
(value-driven ten-point reading), not as 7/100 as the claim's
pattern-driven rule requires; and on the basic path, `80% confidence`
loses to the later-declared `confidence … /10` pattern, although the
claim places `NN% confidence` in the earlier percent group. -/
theorem C4_counterexample :
    reSearch Enhanced.confPat1At "confidence: 7%".toList = some 7
    ∧ Enhanced.extract_confidence_score "confidence: 7%".toList = 7 / 10
    ∧ (7 / 10 : ℚ) ≠ 7 / 100
    ∧ Orchestrator.extract_confidence_score "80% confidence and confidence of 7/10".toList
        = some (7 / 10)
    ∧ (7 / 10 : ℚ) ≠ 80 / 100 := by
  refine ⟨by with_unfolding_all rfl, by with_unfolding_all rfl, by with_unfolding_all decide,
    by with_unfolding_all rfl, by with_unfolding_all decide⟩

/-- C4 (amended): the enhanced extractor tries its four patterns in
declared order (confidence percent, percent confidence, confidence
slash-ten, slash-ten confidence) and normalises the first matched value by
magnitude — above 10 as a percentage, otherwise as a ten-point score —
with default 0.7; the basic extractor tries confidence percent, then
confidence slash-ten, then bare percent confidence, normalising per
pattern with clamping, and yields no value when nothing matches. -/
theorem C4_theorem (l : List Char) :
    (Enhanced.firstConfMatch l = none ∧ Enhanced.extract_confidence_score l = 7 / 10
      ∨ ∃ v, Enhanced.firstConfMatch l = some v
          ∧ Enhanced.extract_confidence_score l = (if 10 < v then v / 100 else v / 10))
    ∧ Enhanced.extract_confidence_score "confidence: 85%".toList = 85 / 100
    ∧ Enhanced.extract_confidence_score "confidence: 7/10".toList = 7 / 10
    ∧ Enhanced.extract_confidence_score "confidence: 7%".toList = 7 / 10
    ∧ Enhanced.extract_confidence_score "no figures here".toList = 7 / 10
    ∧ Orchestrator.extract_confidence_score "confidence: 85%".toList = some (85 / 100)
    ∧ Orchestrator.extract_confidence_score "confidence: 7/10".toList = some (7 / 10)
    ∧ Orchestrator.extract_confidence_score "no figures here".toList = none
    ∧ Orchestrator.extract_confidence_score "80% confidence and confidence of 7/10".toList
        = some (7 / 10) := by
  refine ⟨?_, by with_unfolding_all rfl, by with_unfolding_all rfl, by with_unfolding_all rfl,
    by with_unfolding_all rfl, by with_unfolding_all rfl, by with_unfolding_all rfl,
    by with_unfolding_all rfl, by with_unfolding_all rfl⟩
  rcases h : Enhanced.firstConfMatch l with _ | v
  · left
    refine ⟨rfl, ?_⟩
    unfold Enhanced.extract_confidence_score
    rw [h]
  · right
    refine ⟨v, rfl, ?_⟩
    unfold Enhanced.extract_confidence_score Enhanced.normConf
    rw [h]

/-! Claim C7. -/

/-- Membership in a stable descending insertion. -/
theorem mem_insertDesc (x y : MemorySystem.SimilarMemo) (l : List MemorySystem.SimilarMemo) :
    y ∈ MemorySystem.insertDesc x l ↔ y = x ∨ y ∈ l := by
  induction l with
  | nil => simp [MemorySystem.insertDesc]
  | cons a as ih =>
    unfold MemorySystem.insertDesc
    split
    · simp only [List.mem_cons, ih]
      tauto
    · simp only [List.mem_cons]

/-- Membership in the stable descending sort. -/
theorem mem_sortDesc (y : MemorySystem.SimilarMemo) (l : List MemorySystem.SimilarMemo) :
    y ∈ MemorySystem.sortDesc l ↔ y ∈ l := by
  induction l with
  | nil => simp [MemorySystem.sortDesc]
  | cons a as ih =>
    unfold MemorySystem.sortDesc
    rw [mem_insertDesc, ih, List.mem_cons]

/-- Inserting preserves descending order. -/
theorem pairwise_insertDesc (x : MemorySystem.SimilarMemo) (l : List MemorySystem.SimilarMemo)
    (h : List.Pairwise (fun a b => b.similarity_score ≤ a.similarity_score) l) :
    List.Pairwise (fun a b => b.similarity_score ≤ a.similarity_score)
      (MemorySystem.insertDesc x l) := by
  induction l with
  | nil => simp [MemorySystem.insertDesc]
  | cons a as ih =>
    unfold MemorySystem.insertDesc
    rw [List.pairwise_cons] at h
    split
    next hlt =>
      rw [List.pairwise_cons]
      refine ⟨?_, ih h.2⟩
      intro y hy
      rcases (mem_insertDesc x y as).mp hy with hx | hmem
      · rw [hx]
        exact le_of_lt hlt
      · exact h.1 y hmem
    next hge =>
      rw [List.pairwise_cons]
      refine ⟨?_, List.pairwise_cons.mpr h⟩
      intro y hy
      rcases List.mem_cons.mp hy with hx | hmem
      · rw [hx]
        exact Bool.eq_false_iff.mpr hge
      · exact le_trans (h.1 y hmem) (Bool.eq_false_iff.mpr hge)

/-- The stable descending sort is descending. -/
theorem pairwise_sortDesc (l : List MemorySystem.SimilarMemo) :
    List.Pairwise (fun a b => b.similarity_score ≤ a.similarity_score)
      (MemorySystem.sortDesc l) := by
  induction l with
  | nil => exact List.Pairwise.nil
  | cons a as ih => exact pairwise_insertDesc a _ ih

/-- C7: retrieval returns only stored records with a non-null outcome,
every returned entry scores at least the threshold, the list is sorted by
descending similarity, and at most `limit` entries are returned. -/
theorem C7_theorem (sim : MemorySystem.MemRecord → ℚ) (store : List MemorySystem.MemRecord)
    (limit : Nat) (min_similarity : ℚ) :
    (MemorySystem.find_similar_memos sim store limit min_similarity).length ≤ limit
    ∧ List.Pairwise (fun a b => b.similarity_score ≤ a.similarity_score)
        (MemorySystem.find_similar_memos sim store limit min_similarity)
    ∧ ∀ m ∈ MemorySystem.find_similar_memos sim store limit min_similarity,
        m.record.outcome.isSome = true
        ∧ min_similarity ≤ m.similarity_score
        ∧ m.record ∈ store := by
  refine ⟨List.length_take_le _ _, ?_, ?_⟩
  · exact List.Pairwise.sublist (List.take_sublist _ _) (pairwise_sortDesc _)
  · intro m hm
    have hm1 : m ∈ MemorySystem.sortDesc (List.filterMap _ _) :=
      (List.take_sublist _ _).subset hm
    rw [mem_sortDesc] at hm1
    obtain ⟨r, hr, heq⟩ := List.mem_filterMap.mp hm1
    obtain ⟨hrs, hout⟩ := List.mem_filter.mp hr
    by_cases hsim : min_similarity ≤ sim r
    · rw [if_pos hsim] at heq
      obtain rfl := Option.some_injective _ heq
      exact ⟨hout, hsim, hrs⟩
    · rw [if_neg hsim] at heq
      exact absurd heq (by simp)

/-- C7 witness: the retrieval contract evaluated on a concrete store, with
the outcome-less record excluded. -/
theorem C7_witness :
    ((MemorySystem.find_similar_memos simEx [recEx2, recEx1] 10 (3 / 10)).length ≤ 10
      ∧ List.Pairwise (fun a b => b.similarity_score ≤ a.similarity_score)
          (MemorySystem.find_similar_memos simEx [recEx2, recEx1] 10 (3 / 10))
      ∧ ∀ m ∈ MemorySystem.find_similar_memos simEx [recEx2, recEx1] 10 (3 / 10),
          m.record.outcome.isSome = true
          ∧ (3 / 10 : ℚ) ≤ m.similarity_score
          ∧ m.record ∈ [recEx2, recEx1])
    ∧ MemorySystem.find_similar_memos simEx [recEx2, recEx1] 10 (3 / 10)
        = [{ record := recEx1, similarity_score := 1 }] :=
  ⟨C7_theorem simEx [recEx2, recEx1] 10 (3 / 10), by with_unfolding_all rfl⟩

/-! Claim C8. -/

/-- C8 counterexample: with the texts `volatile volatile`, empty, and
`safe`, the code counts each keyword at most once per text (risk 1,
safety 1, score 5.5, Medium), while the claim's occurrence tally gives
risk 2, safety 1 and score 7, High. -/
theorem C8_counterexample :
    AdvancedRiskManager.calculate_risk_score "volatile volatile".toList [] "safe".toList = 11 / 2
    ∧ AdvancedRiskManager.specOccurRiskScore "volatile volatile".toList [] "safe".toList = 7
    ∧ (11 / 2 : ℚ) ≠ 7
    ∧ AdvancedRiskManager.categorize_risk (11 / 2) = "Medium Risk".toList
    ∧ AdvancedRiskManager.categorize_risk 7 = "High Risk".toList := by
  refine ⟨by with_unfolding_all rfl, by with_unfolding_all rfl, by with_unfolding_all decide,
    by with_unfolding_all rfl, by with_unfolding_all rfl⟩

/-- C8 (amended): the risk and safety tallies count, per text, the lexicon
keywords present (each at most once per text, summed over the three
texts); the score is `1 + 9 * risk/(risk+safety)` with default 5 when both
tallies are zero, which is categorised Medium; the category is Low for
scores at most 3, Medium for scores at most 6, High above. -/
theorem C8_theorem (conservative aggressive neutral : List Char) (s : ℚ) :
    (AdvancedRiskManager.riskCount conservative aggressive neutral = 0
        ∧ AdvancedRiskManager.safetyCount conservative aggressive neutral = 0 →
      AdvancedRiskManager.calculate_risk_score conservative aggressive neutral = 5
        ∧ AdvancedRiskManager.categorize_risk
            (AdvancedRiskManager.calculate_risk_score conservative aggressive neutral)
          = "Medium Risk".toList)
    ∧ (¬(AdvancedRiskManager.riskCount conservative aggressive neutral = 0
        ∧ AdvancedRiskManager.safetyCount conservative aggressive neutral = 0) →
      AdvancedRiskManager.calculate_risk_score conservative aggressive neutral
        = 1 + ((AdvancedRiskManager.riskCount conservative aggressive neutral : ℚ)
            / ((AdvancedRiskManager.riskCount conservative aggressive neutral
                + AdvancedRiskManager.safetyCount conservative aggressive neutral : Nat) : ℚ)) * 9)
    ∧ (AdvancedRiskManager.categorize_risk s = "Low Risk".toList ↔ s ≤ 3)
    ∧ (AdvancedRiskManager.categorize_risk s = "Medium Risk".toList ↔ 3 < s ∧ s ≤ 6)
    ∧ (AdvancedRiskManager.categorize_risk s = "High Risk".toList ↔ 6 < s) := by
  refine ⟨?_, ?_, ?_, ?_, ?_⟩
  · rintro ⟨h1, h2⟩
    have hs : AdvancedRiskManager.calculate_risk_score conservative aggressive neutral = 5 := by
      unfold AdvancedRiskManager.calculate_risk_score
      rw [if_pos ⟨h1, h2⟩]
    refine ⟨hs, ?_⟩
    rw [hs]
    unfold AdvancedRiskManager.categorize_risk
    rw [if_neg (by norm_num), if_pos (by norm_num)]
  · intro h
    unfold AdvancedRiskManager.calculate_risk_score
    rw [if_neg h]
  · constructor
    · intro heq
      by_contra hnot
      unfold AdvancedRiskManager.categorize_risk at heq
      rw [if_neg hnot] at heq
      split at heq <;> exact absurd heq (by decide)
    · intro hle
      unfold AdvancedRiskManager.categorize_risk
      rw [if_pos hle]
  · constructor
    · intro heq
      unfold AdvancedRiskManager.categorize_risk at heq
      by_cases h1 : s ≤ 3
      · rw [if_pos h1] at heq
        exact absurd heq (by decide)
      · rw [if_neg h1] at heq
        by_cases h2 : s ≤ 6
        · exact ⟨lt_of_not_le h1, h2⟩
        · rw [if_neg h2] at heq
          exact absurd heq (by decide)
    · rintro ⟨h3, h6⟩
      unfold AdvancedRiskManager.categorize_risk
      rw [if_neg (not_le.mpr h3), if_pos h6]
  · constructor
    · intro heq
      unfold AdvancedRiskManager.categorize_risk at heq
      by_cases h1 : s ≤ 3
      · rw [if_pos h1] at heq
        exact absurd heq (by decide)
      · rw [if_neg h1] at heq
        by_cases h2 : s ≤ 6
        · rw [if_pos h2] at heq
          exact absurd heq (by decide)
        · exact lt_of_not_le h2
    · intro h6
      unfold AdvancedRiskManager.categorize_risk
      rw [if_neg (not_le.mpr (lt_trans (by norm_num) h6)), if_neg (not_le.mpr h6)]

/-- C8 witness: zero tallies give score 5 and category Medium. -/
theorem C8_witness :
    (AdvancedRiskManager.riskCount [] [] [] = 0 ∧ AdvancedRiskManager.safetyCount [] [] [] = 0)
    ∧ AdvancedRiskManager.calculate_risk_score [] [] [] = 5
    ∧ AdvancedRiskManager.categorize_risk (AdvancedRiskManager.calculate_risk_score [] [] [])
        = "Medium Risk".toList
    ∧ (AdvancedRiskManager.categorize_risk 5 = "Medium Risk".toList ↔ (3 < (5 : ℚ) ∧ (5 : ℚ) ≤ 6)) :=
  ⟨⟨by decide, by decide⟩,
   ((C8_theorem [] [] [] 5).1 ⟨by decide, by decide⟩).1,
   ((C8_theorem [] [] [] 5).1 ⟨by decide, by decide⟩).2,
   (C8_theorem [] [] [] 5).2.2.2.1⟩

/-! Claim C9. -/

/-- The research-debate history grows by exactly two entries per round. -/
theorem rt_history_len (fbull fbear : ResearchTeam.RTCtx → List Char)
    (c0 : ResearchTeam.RTCtx) (n : Nat) :
    (ResearchTeam.stateAfter fbull fbear c0 n).debate_history.length = 2 * n := by
  induction n with
  | zero => rfl
  | succ j ih =>
    unfold ResearchTeam.stateAfter ResearchTeam.debateStep
    dsimp only
    rw [List.length_append, ih]
    simp [Nat.mul_succ]

/-- The risk-debate history grows by exactly three entries per round. -/
theorem rk_history_len (fcons faggr fneut : AdvancedRiskManager.RKCtx → List Char)
    (c0 : AdvancedRiskManager.RKCtx) (n : Nat) :
    (AdvancedRiskManager.riskStateAfter fcons faggr fneut c0 n).debate_history.length = 3 * n := by
  induction n with
  | zero => rfl
  | succ j ih =>
    unfold AdvancedRiskManager.riskStateAfter AdvancedRiskManager.riskStep
    dsimp only
    rw [List.length_append, ih]
    simp [Nat.mul_succ]

/-- C9: a failed generation call is converted into an inline error string
naming the agent and is never propagated — the call always returns some
string — and both debates still advance every round and fill every slot,
even when every underlying call fails. -/
theorem C9_theorem (name e content : List Char) (resp : BaseAgent.LlmResult)
    (fbull fbear : ResearchTeam.RTCtx → List Char) (fsynth : List Char → List Char → List Char)
    (c0 : ResearchTeam.RTCtx) (R : Nat)
    (fcons faggr fneut : AdvancedRiskManager.RKCtx → List Char)
    (fsynth3 : List Char → List Char → List Char → List Char)
    (c0r : AdvancedRiskManager.RKCtx) :
    BaseAgent.call_llm name (Except.error e) = "Error in ".toList ++ name ++ ": ".toList ++ e
    ∧ BaseAgent.call_llm name (Except.ok content) = content
    ∧ (∃ s, BaseAgent.call_llm name resp = s)
    ∧ (ResearchTeam.conduct_research_debate fbull fbear fsynth c0 R).debate_history.length = 2 * R
    ∧ (AdvancedRiskManager.conduct_risk_debate fcons faggr fneut fsynth3 c0r R).debate_history.length
        = 3 * R
    ∧ (ResearchTeam.conduct_research_debate
        (fun _ => BaseAgent.call_llm "BullResearcher".toList (Except.error e))
        (fun _ => BaseAgent.call_llm "BearResearcher".toList (Except.error e))
        fsynth c0 (R + 1)).bull_analysis = "Error in BullResearcher: ".toList ++ e
    ∧ (ResearchTeam.conduct_research_debate
        (fun _ => BaseAgent.call_llm "BullResearcher".toList (Except.error e))
        (fun _ => BaseAgent.call_llm "BearResearcher".toList (Except.error e))
        fsynth c0 (R + 1)).bear_analysis = "Error in BearResearcher: ".toList ++ e := by
  refine ⟨rfl, rfl, ⟨BaseAgent.call_llm name resp, rfl⟩, rt_history_len fbull fbear c0 R,
    rk_history_len fcons faggr fneut c0r R, ?_, ?_⟩
  · exact ((rt_stateAfter_succ
      (fun _ => BaseAgent.call_llm "BullResearcher".toList (Except.error e))
      (fun _ => BaseAgent.call_llm "BearResearcher".toList (Except.error e)) c0 R).1).trans rfl
  · exact ((rt_stateAfter_succ
      (fun _ => BaseAgent.call_llm "BullResearcher".toList (Except.error e))
      (fun _ => BaseAgent.call_llm "BearResearcher".toList (Except.error e)) c0 R).2.1).trans rfl

/-! Claim C10. -/

/-- C10: every extraction function of the embedding is a total pure
function on strings — equal results on repeated application — and on
empty (pattern-free) input each returns its documented default rather
than failing. -/
theorem C10_theorem (l c a n : List Char) :
    Enhanced.extract_recommendation l = Enhanced.extract_recommendation l
    ∧ Enhanced.extract_confidence_score l = Enhanced.extract_confidence_score l
    ∧ Enhanced.extract_position_size l = Enhanced.extract_position_size l
    ∧ Orchestrator.extract_recommendation l = Orchestrator.extract_recommendation l
    ∧ Orchestrator.extract_confidence_score l = Orchestrator.extract_confidence_score l
    ∧ Orchestrator.extract_position_size l = Orchestrator.extract_position_size l
    ∧ AdvancedRiskManager.extract_position_size l = AdvancedRiskManager.extract_position_size l
    ∧ AdvancedRiskManager.extract_confidence l = AdvancedRiskManager.extract_confidence l
    ∧ AdvancedRiskManager.calculate_risk_score c a n
        = AdvancedRiskManager.calculate_risk_score c a n
    ∧ Enhanced.extract_recommendation [] = "HOLD".toList
    ∧ Enhanced.extract_confidence_score [] = 7 / 10
    ∧ Enhanced.extract_position_size [] = 5
    ∧ Orchestrator.extract_confidence_score [] = none
    ∧ Orchestrator.extract_position_size [] = none
    ∧ AdvancedRiskManager.extract_position_size [] = none
    ∧ AdvancedRiskManager.extract_confidence [] = none
    ∧ AdvancedRiskManager.calculate_risk_score [] [] [] = 5 :=
  ⟨rfl, rfl, rfl, rfl, rfl, rfl, rfl, rfl, rfl, by decide,
   by with_unfolding_all rfl, by with_unfolding_all rfl, rfl, rfl, rfl, rfl,
   by with_unfolding_all rfl⟩

/-- C2 witness: at a concrete oracle whose chief narrative names a Buy
recommendation, the extractor yields an upper-cased value and the sealed
memo's status is still `error`. -/
theorem C2_witness :
    Enhanced.extract_recommendation "Recommendation: Buy at 80% confidence".toList ≠ "Buy".toList
    ∧ (Enhanced.generate_enhanced_memo oracleEx flagsEx false
        "T".toList "fd".toList tdEx "sd".toList).status = some "error".toList :=
  ⟨(C2_theorem ("Recommendation: Buy at 80% confidence".toList) oracleEx flagsEx
      "T".toList "fd".toList tdEx "sd".toList).2.1,
   (C2_theorem ("Recommendation: Buy at 80% confidence".toList) oracleEx flagsEx
      "T".toList "fd".toList tdEx "sd".toList).2.2.2.2.2.1⟩
